import Mathlib

/-!
Shallow embedding of the ATS resume scorer (`services/ats_scorer.py`) of the
NSUT-ATS-SCORER-BACKEND repository, together with theorems settling the
specification claims about it.

Modelling conventions:
* Python `str` is `String`, manipulated as its `List Char` of code points.
* `str.lower()` is `Char.toLower` (ASCII case folding; all catalog patterns and
  keywords are ASCII).
* Python `needle in hay` (substring containment) is `hasSub`.
* The four format-indicator regular expressions (`bullet_points`, `dates`,
  `email`, `phone`) are embedded as hand-written scanners with `re.search`
  existence semantics: the scanner returns `true` iff a match of the pattern
  starts at some position of the text, with `\b`, `\d`, `\w`, `\s` and the
  optional / repeated pieces spelled out explicitly (ASCII character classes).
  All section-detection patterns are metacharacter-free literals, so for them
  `re.search` coincides with substring containment.
* Python `float` arithmetic in `calculate_overall_score` is modelled as exact
  rational arithmetic, and `int()` as truncation toward zero.
-/

set_option maxRecDepth 100000
set_option linter.unusedVariables false

namespace ATS

/-- `matchesAt needle hay`: `needle` occurs at the very start of `hay`. -/
def matchesAt : List Char → List Char → Bool
  | [], _ => true
  | _ :: _, [] => false
  | c :: cs, d :: ds => c == d && matchesAt cs ds

/-- `hasSub needle hay`: Python substring containment `needle in hay`. -/
def hasSub (needle : List Char) : List Char → Bool
  | [] => matchesAt needle []
  | c :: cs => matchesAt needle (c :: cs) || hasSub needle cs

/-- ASCII lowering of a whole string, modelling Python `str.lower()`. -/
def lowerList (cs : List Char) : List Char := cs.map Char.toLower

/-- Regex `\w` (ASCII): letters, digits and underscore. -/
def isWordChar (c : Char) : Bool := c.isAlphanum || c == '_'

/-- Regex `\s` (ASCII): the whitespace characters Python counts. -/
def pySpace (c : Char) : Bool :=
  c == ' ' || c == '\t' || c == '\n' || c == '\r' || c == '\x0b' || c == '\x0c'

/-- Whether an optional character is a word character (`none` = outside text). -/
def isWordOpt : Option Char → Bool
  | some c => isWordChar c
  | none => false

/-- Regex `\b`: a word boundary lies between two characters (or a character and
an end of the text) iff exactly one side is a word character. -/
def boundary (prev next : Option Char) : Bool := isWordOpt prev != isWordOpt next

/-- A word boundary directly after a word character: the next character is
missing or a non-word character. -/
def bdryAfterWord : List Char → Bool
  | [] => true
  | c :: _ => !isWordChar c

/-- Consume exactly `n` digits (`\d{n}`), returning the rest on success. -/
def dropDigits : Nat → List Char → Option (List Char)
  | 0, cs => some cs
  | _ + 1, [] => none
  | n + 1, c :: cs => if c.isDigit then dropDigits n cs else none

/-- `[-.]?`: the possible rests after optionally consuming one `-` or `.`. -/
def afterOptSep (cs : List Char) : List (List Char) :=
  match cs with
  | c :: rest => if c == '-' || c == '.' then [c :: rest, rest] else [c :: rest]
  | [] => [[]]

/-- `\s?`: the possible rests after optionally consuming one whitespace char. -/
def afterOptSpace (cs : List Char) : List (List Char) :=
  match cs with
  | c :: rest => if pySpace c then [c :: rest, rest] else [c :: rest]
  | [] => [[]]

/-- All rests obtainable by consuming 1 or more leading characters of class
`cls` (the backtracking choices of a `+` repetition). -/
def runRests (cls : Char → Bool) : List Char → List (List Char)
  | [] => []
  | c :: cs => if cls c then cs :: runRests cls cs else []

/-- Driver for `re.search`: does the position predicate `p` (which receives the
preceding character and the rest of the text) hold at some position? -/
def searchAux (p : Option Char → List Char → Bool) : Option Char → List Char → Bool
  | prev, [] => p prev []
  | prev, c :: cs => p prev (c :: cs) || searchAux p (some c) cs

/-- `re.search` of a position predicate over a whole string. -/
def reSearch (p : Option Char → List Char → Bool) (s : String) : Bool :=
  searchAux p none s.data

/-- `\d+\.\s` starting here: one or more digits, a dot, a whitespace. -/
def digitsDotSpace : List Char → Bool
  | [] => false
  | c :: rest =>
    c.isDigit &&
      ((match rest with | '.' :: s :: _ => pySpace s | _ => false) || digitsDotSpace rest)

/-- A match of the `bullet_points` indicator `[•·▪▫▸▹‣⁃]|\*\s|\-\s|\d+\.\s`
starting at the current position. -/
def bulletHere (_prev : Option Char) (cs : List Char) : Bool :=
  match cs with
  | [] => false
  | c :: rest =>
    (c == '•' || c == '·' || c == '▪' || c == '▫' ||
     c == '▸' || c == '▹' || c == '‣' || c == '⁃')
    || ((c == '*' || c == '-') && (match rest with | d :: _ => pySpace d | [] => false))
    || digitsDotSpace (c :: rest)

/-- A match of the `dates` indicator `\b\d{4}\b|\b\d{1,2}/\d{4}\b|\b\w+\s\d{4}\b`
starting at the current position. The leading character of each branch is a
word character, so the opening `\b` holds iff the previous character is not. -/
def datesHere (prev : Option Char) (cs : List Char) : Bool :=
  !isWordOpt prev &&
    (((dropDigits 4 cs).toList.any bdryAfterWord)
     || ([1, 2].any fun k =>
          (dropDigits k cs).toList.any fun r1 =>
            match r1 with
            | '/' :: r2 => (dropDigits 4 r2).toList.any bdryAfterWord
            | _ => false)
     || ((runRests isWordChar cs).any fun r1 =>
          match r1 with
          | s :: r2 => pySpace s && (dropDigits 4 r2).toList.any bdryAfterWord
          | [] => false))

/-- The local-part character class `[A-Za-z0-9._%+-]` of the `email` regex. -/
def localCls (c : Char) : Bool :=
  c.isAlphanum || c == '.' || c == '_' || c == '%' || c == '+' || c == '-'

/-- The domain character class `[A-Za-z0-9.-]` of the `email` regex. -/
def domainCls (c : Char) : Bool := c.isAlphanum || c == '.' || c == '-'

/-- The top-level-domain class `[A-Z|a-z]` of the `email` regex (the source
pattern literally includes `|` in the class). -/
def tldCls (c : Char) : Bool := c.isAlpha || c == '|'

/-- `{1,}` continuation for the TLD: having already consumed one TLD character,
consume at least one more and end at a word boundary (so the whole TLD has
length at least 2, matching `{2,}`). -/
def tldMore : List Char → Bool
  | [] => false
  | c :: rest => tldCls c && (boundary (some c) rest.head? || tldMore rest)

/-- `[A-Z|a-z]{2,}\b` starting here. -/
def tldTail : List Char → Bool
  | [] => false
  | c :: rest => tldCls c && tldMore rest

/-- A match of the `email` indicator
`\b[A-Za-z0-9._%+-]+@[A-Za-z0-9.-]+\.[A-Z|a-z]{2,}\b` starting at the current
position. -/
def emailHere (prev : Option Char) (cs : List Char) : Bool :=
  match cs with
  | [] => false
  | c0 :: _ =>
    boundary prev (some c0) &&
      ((runRests localCls cs).any fun r1 =>
        match r1 with
        | '@' :: r2 =>
          (runRests domainCls r2).any fun r3 =>
            match r3 with
            | '.' :: r4 => tldTail r4
            | _ => false
        | _ => false)

/-- A match of the `phone` indicator
`\b\d{3}[-.]?\d{3}[-.]?\d{4}\b|\b\(\d{3}\)\s?\d{3}[-.]?\d{4}\b` starting at the
current position. In the first branch the first matched character is a digit,
so `\b` holds iff the previous character is not a word character; in the second
branch the first matched character is `(`, a non-word character, so `\b` holds
iff the previous character IS a word character. -/
def phoneHere (prev : Option Char) (cs : List Char) : Bool :=
  (!isWordOpt prev &&
    ((dropDigits 3 cs).toList.any fun r1 =>
      (afterOptSep r1).any fun r2 =>
        (dropDigits 3 r2).toList.any fun r3 =>
          (afterOptSep r3).any fun r4 =>
            (dropDigits 4 r4).toList.any bdryAfterWord))
  ||
  (isWordOpt prev &&
    (match cs with
     | '(' :: r0 =>
       (dropDigits 3 r0).toList.any fun r1 =>
         match r1 with
         | ')' :: r2 =>
           (afterOptSpace r2).any fun r3 =>
             (dropDigits 3 r3).toList.any fun r4 =>
               (afterOptSep r4).any fun r5 =>
                 (dropDigits 4 r5).toList.any bdryAfterWord
         | _ => false
     | _ => false))

/-- `re.search(format_indicators['bullet_points'], text)` as a Boolean. -/
def bulletSearch (text : String) : Bool := reSearch bulletHere text

/-- `re.search(format_indicators['dates'], text)` as a Boolean. -/
def datesSearch (text : String) : Bool := reSearch datesHere text

/-- `re.search(format_indicators['email'], text)` as a Boolean. -/
def emailSearch (text : String) : Bool := reSearch emailHere text

/-- `re.search(format_indicators['phone'], text)` as a Boolean. -/
def phoneSearch (text : String) : Bool := reSearch phoneHere text

/-! ## The static pattern catalog (`ATSScorer.__init__`) -/

/-- `self.section_patterns`: section name ↦ alternative detection patterns, in
source (insertion) order. Every pattern is a metacharacter-free literal, so
`re.search(pattern, text_lower)` is substring containment. -/
def section_patterns : List (String × List String) :=
  [("contact_info", ["email", "phone", "linkedin", "github", "address"]),
   ("professional_summary", ["summary", "objective", "profile", "about"]),
   ("experience", ["experience", "employment", "work history", "career"]),
   ("education", ["education", "academic", "degree", "university", "college"]),
   ("skills", ["skills", "technical skills", "technologies", "programming"]),
   ("projects", ["projects", "portfolio", "work samples"]),
   ("certifications", ["certifications", "licenses", "certificates"])]

/-- `self.tech_keywords`: the fixed technical-keyword catalog (26 entries). -/
def tech_keywords : List String :=
  ["python", "java", "javascript", "react", "node.js", "sql",
   "html", "css", "git", "github", "docker", "kubernetes",
   "aws", "azure", "mongodb", "postgresql", "mysql",
   "machine learning", "data science", "api", "rest",
   "agile", "scrum", "ci/cd", "jenkins", "linux"]

/-! ## The scoring passes -/

/-- `count_keywords`: how many catalog keywords satisfy
`keyword.lower() in text.lower()`. -/
def count_keywords (text : String) : Nat :=
  tech_keywords.countP fun keyword => hasSub (lowerList keyword.data) (lowerList text.data)

/-- `score_contact_info`: +10 each for an email match, a phone match, literal
`linkedin`, literal `github` in the lowered text. -/
def score_contact_info (text : String) : Nat :=
  (if emailSearch text then 10 else 0) +
  (if phoneSearch text then 10 else 0) +
  (if hasSub "linkedin".data (lowerList text.data) then 10 else 0) +
  (if hasSub "github".data (lowerList text.data) then 10 else 0)

/-- `score_skills_section`: 5 per catalog keyword present, capped at 40. -/
def score_skills_section (text : String) : Nat :=
  min ((tech_keywords.countP fun keyword =>
        hasSub (lowerList keyword.data) (lowerList text.data)) * 5) 40

/-- The fixed action-verb list of `score_experience_section`. -/
def action_verbs : List String :=
  ["developed", "implemented", "managed", "created",
   "designed", "built", "led", "optimized"]

/-- `score_experience_section`: +15 for bullet points, +15 for dates, +2 per
action verb present capped at 10. -/
def score_experience_section (text : String) : Nat :=
  (if bulletSearch text then 15 else 0) +
  (if datesSearch text then 15 else 0) +
  min ((action_verbs.countP fun verb => hasSub verb.data (lowerList text.data)) * 2) 10

/-- The fixed keyword list of `score_education_section`. -/
def education_keywords : List String :=
  ["degree", "bachelor", "master", "phd", "university", "college", "gpa"]

/-- `score_education_section`: +5 per education keyword present, capped at 40. -/
def score_education_section (text : String) : Nat :=
  min ((education_keywords.countP fun keyword =>
        hasSub (lowerList keyword.data) (lowerList text.data)) * 5) 40

/-- The `if section == ... elif ...` chain of `analyze_sections` dispatching
the per-section quality bonus; sections not named there get no bonus. -/
def sectionBonus (sec : String) (text : String) : Nat :=
  if sec = "contact_info" then score_contact_info text
  else if sec = "skills" then score_skills_section text
  else if sec = "experience" then score_experience_section text
  else if sec = "education" then score_education_section text
  else 0

/-- `analyze_sections`: for each catalog section, 0 when no pattern occurs in
the lowered text, otherwise the base 60 plus the section bonus, capped at
100. Returns the section-score map in catalog order. -/
def analyze_sections (text : String) : List (String × Nat) :=
  section_patterns.map fun sp =>
    (sp.1,
     if sp.2.any (fun pattern => hasSub pattern.data (lowerList text.data))
     then min (60 + sectionBonus sp.1 text) 100
     else 0)

/-- `len(text.split())`: number of maximal whitespace-free words, by a scan
that counts entries into words (`inWord` is the state of the scan). -/
def wordCountAux : Bool → List Char → Nat
  | _, [] => 0
  | inWord, c :: cs =>
    if pySpace c then wordCountAux false cs
    else (if inWord then 0 else 1) + wordCountAux true cs

/-- `len(text.split())` for a string. -/
def wordCount (text : String) : Nat := wordCountAux false text.data

/-- `analyze_format`: +25 bullets, +25 dates, +20 email, +20 phone, +10 when
the word count lies in [200, 800]; capped at 100. -/
def analyze_format (text : String) : Nat :=
  min ((if bulletSearch text then 25 else 0) +
       (if datesSearch text then 25 else 0) +
       (if emailSearch text then 20 else 0) +
       (if phoneSearch text then 20 else 0) +
       (if 200 ≤ wordCount text ∧ wordCount text ≤ 800 then 10 else 0)) 100

/-- Python `int()` on a rational: truncation toward zero. -/
def pyTrunc (q : ℚ) : ℤ := if 0 ≤ q then ⌊q⌋ else ⌈q⌉

/-- `calculate_overall_score`: weighted average of section mean, keyword score
and format score, truncated to an integer:
`int(sum(scores)/len(scores) * 0.5 + min(k*5,100) * 0.3 + f * 0.2)`.
Floats are modelled as exact rationals (exhaustive comparison over the
reachable integer inputs shows CPython's float evaluation truncates to the
same integers). In exact arithmetic the weighted sum equals
`(5*s + 3*ks*n + 2*f*n) / (10*n)` with `s = sum(scores)`, `n = len(scores)`,
`ks = min(k*5, 100)`, a nonnegative rational, whose truncation toward zero is
natural-number division; the theorem for claim C2 below proves this equal to
`pyTrunc` (and to the floor) of the rational weighted-sum formula. -/
def calculate_overall_score (section_scores : List (String × Nat))
    (keywords_found : Nat) (format_score : Nat) : ℤ :=
  let s := (section_scores.map Prod.snd).sum
  let n := section_scores.length
  let keyword_score := min (keywords_found * 5) 100
  ((5 * s + 3 * keyword_score * n + 2 * format_score * n) / (10 * n) : ℕ)

/-! ## Suggestions -/

/-- `models/resume_models.py`: `Suggestion`. -/
structure Suggestion where
  title : String
  description : String
  priority : String
deriving DecidableEq, Repr

/-- `section.replace('_', ' ')`. -/
def replaceUnderscore (s : String) : String :=
  ⟨s.data.map fun c => if c == '_' then ' ' else c⟩

/-- One step of Python `str.title()`: an alphabetic character is uppercased
when the previous character was not alphabetic, lowercased otherwise. -/
def pyTitleAux : Bool → List Char → List Char
  | _, [] => []
  | prevAlpha, c :: cs =>
    (if c.isAlpha then (if prevAlpha then c.toLower else c.toUpper) else c)
      :: pyTitleAux c.isAlpha cs

/-- Python `str.title()` (ASCII). -/
def pyTitle (s : String) : String := ⟨pyTitleAux false s.data⟩

/-- The "Add ... Section" suggestion emitted for a zero-scored section. -/
def addSuggestion (sec : String) : Suggestion :=
  { title := "Add " ++ pyTitle (replaceUnderscore sec) ++ " Section"
    description := "Your resume is missing a " ++ replaceUnderscore sec ++
      " section. This is essential for ATS systems."
    priority := "high" }

/-- The "Improve ... Section" suggestion emitted for a section scoring below 70. -/
def improveSuggestion (sec : String) : Suggestion :=
  { title := "Improve " ++ pyTitle (replaceUnderscore sec) ++ " Section"
    description := "Your " ++ replaceUnderscore sec ++
      " section could be enhanced with more relevant details and better formatting."
    priority := "medium" }

/-- The keyword suggestion emitted when fewer than 5 keywords were found. -/
def keywordSuggestion : Suggestion :=
  { title := "Add More Technical Keywords"
    description := "Include more relevant technical skills and keywords that match the job descriptions you're targeting."
    priority := "high" }

/-- The format suggestion emitted when the format score is below 60. -/
def formatSuggestion : Suggestion :=
  { title := "Improve Resume Formatting"
    description := "Use bullet points, consistent date formats, and clear section headers to improve ATS readability."
    priority := "medium" }

/-- The first always-appended general suggestion. -/
def generalSuggestion1 : Suggestion :=
  { title := "Quantify Your Achievements"
    description := "Add numbers and metrics to your accomplishments (e.g., 'Improved performance by 25%')."
    priority := "medium" }

/-- The second always-appended general suggestion. -/
def generalSuggestion2 : Suggestion :=
  { title := "Tailor for Each Application"
    description := "Customize your resume keywords and content for each job application to improve ATS matching."
    priority := "low" }

/-- The per-section loop of `generate_suggestions`: for each map entry in
order, a high-priority "Add" when the score is 0, a medium-priority "Improve"
when it is below 70, nothing otherwise. -/
def sectionSuggestions (section_scores : List (String × Nat)) : List Suggestion :=
  section_scores.filterMap fun p =>
    if p.2 = 0 then some (addSuggestion p.1)
    else if p.2 < 70 then some (improveSuggestion p.1)
    else none

/-- The suggestion candidates generated before the two fixed general
suggestions: section suggestions, then keyword, then format. -/
def preGeneralSuggestions (section_scores : List (String × Nat))
    (keywords_found format_score : Nat) : List Suggestion :=
  sectionSuggestions section_scores
    ++ (if keywords_found < 5 then [keywordSuggestion] else [])
    ++ (if format_score < 60 then [formatSuggestion] else [])

/-- The full candidate list of `generate_suggestions` in generation order,
before the final truncation. -/
def suggestionCandidates (section_scores : List (String × Nat))
    (keywords_found format_score : Nat) : List Suggestion :=
  preGeneralSuggestions section_scores keywords_found format_score
    ++ [generalSuggestion1, generalSuggestion2]

/-- `generate_suggestions`: the candidate list truncated to its first 8
entries (`return suggestions[:8]`). The `text` argument is accepted but, as in
the source, never read. -/
def generate_suggestions (text : String) (section_scores : List (String × Nat))
    (keywords_found format_score : Nat) : List Suggestion :=
  (suggestionCandidates section_scores keywords_found format_score).take 8

/-! ## The top-level analysis -/

/-- `models/resume_models.py`: `ResumeAnalysis`. -/
structure ResumeAnalysis where
  filename : String
  overall_score : ℤ
  section_scores : List (String × Nat)
  keywords_found : Nat
  sections_detected : Nat
  format_score : Nat
  suggestions : List Suggestion
deriving DecidableEq, Repr

/-- `analyze_resume`: run the passes and assemble the `ResumeAnalysis`. -/
def analyze_resume (text : String) (filename : String) : ResumeAnalysis :=
  let section_scores := analyze_sections text
  let keywords_found := count_keywords text
  let format_score := analyze_format text
  let sections_detected := (section_scores.filter fun p => 0 < p.2).length
  let overall_score := calculate_overall_score section_scores keywords_found format_score
  let suggestions := generate_suggestions text section_scores keywords_found format_score
  { filename := filename
    overall_score := overall_score
    section_scores := section_scores
    keywords_found := keywords_found
    sections_detected := sections_detected
    format_score := format_score
    suggestions := suggestions }

/-! ## Helper lemmas -/

/-- Every score produced by `analyze_sections` is at most 100. -/
theorem analyze_sections_snd_le (text : String) :
    ∀ p ∈ analyze_sections text, p.2 ≤ 100 := by
  intro p hp
  unfold analyze_sections at hp
  obtain ⟨sp, -, rfl⟩ := List.mem_map.mp hp
  dsimp only
  split
  · exact min_le_right _ _
  · exact Nat.zero_le _

/-- The section-score map always has one entry per catalog section. -/
theorem analyze_sections_length (text : String) :
    (analyze_sections text).length = 7 := rfl

theorem addSuggestion_ne_general1 (sec : String) :
    addSuggestion sec ≠ generalSuggestion1 := by
  intro h
  have h2 : ("high" : String) = "medium" := congrArg Suggestion.priority h
  exact absurd h2 (by decide)

theorem addSuggestion_ne_general2 (sec : String) :
    addSuggestion sec ≠ generalSuggestion2 := by
  intro h
  have h2 : ("high" : String) = "low" := congrArg Suggestion.priority h
  exact absurd h2 (by decide)

theorem improveSuggestion_ne_general1 (sec : String) :
    improveSuggestion sec ≠ generalSuggestion1 := by
  intro h
  have h2 : (some 'I' : Option Char) = some 'Q' := congrArg (fun s => s.title.data.head?) h
  exact absurd h2 (by decide)

theorem improveSuggestion_ne_general2 (sec : String) :
    improveSuggestion sec ≠ generalSuggestion2 := by
  intro h
  have h2 : ("medium" : String) = "low" := congrArg Suggestion.priority h
  exact absurd h2 (by decide)

/-- No candidate generated before the two fixed general suggestions is one of
them. -/
theorem mem_preGeneral_ne_generals {x : Suggestion} {section_scores : List (String × Nat)}
    {keywords_found format_score : Nat}
    (h : x ∈ preGeneralSuggestions section_scores keywords_found format_score) :
    x ≠ generalSuggestion1 ∧ x ≠ generalSuggestion2 := by
  unfold preGeneralSuggestions at h
  rcases List.mem_append.mp h with h | h
  · rcases List.mem_append.mp h with h | h
    · unfold sectionSuggestions at h
      obtain ⟨p, -, hp⟩ := List.mem_filterMap.mp h
      split_ifs at hp
      · cases Option.some.inj hp
        exact ⟨addSuggestion_ne_general1 p.1, addSuggestion_ne_general2 p.1⟩
      · cases Option.some.inj hp
        exact ⟨improveSuggestion_ne_general1 p.1, improveSuggestion_ne_general2 p.1⟩
    · have hx : x = keywordSuggestion := by
        by_cases hk : keywords_found < 5
        · simpa [hk] using h
        · simp [hk] at h
      subst hx
      exact ⟨by decide, by decide⟩
  · have hx : x = formatSuggestion := by
      by_cases hf : format_score < 60
      · simpa [hf] using h
      · simp [hf] at h
    subst hx
    exact ⟨by decide, by decide⟩

/-! ## Claim theorems -/

/-- C1: `generate_suggestions` returns exactly the first 8 entries of the
candidate list in generation order (per-section suggestions in map order, then
keyword, then format, then the two fixed general suggestions); whenever 8 or
more candidates precede the generals, the result is the first 8 of those and
both general suggestions are dropped by position, regardless of priorities. -/
theorem claim_C1 (text : String) (section_scores : List (String × Nat))
    (keywords_found format_score : Nat) :
    generate_suggestions text section_scores keywords_found format_score
      = (suggestionCandidates section_scores keywords_found format_score).take 8
    ∧ (8 ≤ (preGeneralSuggestions section_scores keywords_found format_score).length →
        generate_suggestions text section_scores keywords_found format_score
          = (preGeneralSuggestions section_scores keywords_found format_score).take 8
        ∧ generalSuggestion1 ∉ generate_suggestions text section_scores keywords_found format_score
        ∧ generalSuggestion2 ∉ generate_suggestions text section_scores keywords_found format_score) := by
  refine ⟨rfl, fun h => ?_⟩
  have hg : generate_suggestions text section_scores keywords_found format_score
      = (preGeneralSuggestions section_scores keywords_found format_score).take 8 := by
    unfold generate_suggestions suggestionCandidates
    exact List.take_append_of_le_length h
  refine ⟨hg, ?_, ?_⟩ <;> rw [hg] <;> intro hmem
  · exact (mem_preGeneral_ne_generals (List.mem_of_mem_take hmem)).1 rfl
  · exact (mem_preGeneral_ne_generals (List.mem_of_mem_take hmem)).2 rfl

/-- C1 witness: with all 7 sections scoring 0, 0 keywords and format score 0,
nine candidates precede the generals, so the 8 kept suggestions are the first
8 pre-general candidates and both generals are dropped. -/
theorem claim_C1_witness :
    generate_suggestions "" (analyze_sections "") 0 0
      = (preGeneralSuggestions (analyze_sections "") 0 0).take 8
    ∧ generalSuggestion1 ∉ generate_suggestions "" (analyze_sections "") 0 0
    ∧ generalSuggestion2 ∉ generate_suggestions "" (analyze_sections "") 0 0 :=
  (claim_C1 "" (analyze_sections "") 0 0).2 (by decide)

/-- C2: for every nonempty section-score map, keyword count and format score,
`calculate_overall_score` returns the weighted sum
`(sum of scores / number of sections) * 0.5 + min(k*5, 100) * 0.3 + f * 0.2`
truncated toward zero to an integer, and on these inputs truncation toward
zero coincides with the floor (the weighted sum is never negative), not with
rounding. -/
theorem claim_C2 (section_scores : List (String × Nat)) (keywords_found format_score : Nat)
    (h : 0 < section_scores.length) :
    calculate_overall_score section_scores keywords_found format_score
      = pyTrunc (((section_scores.map Prod.snd).sum : ℚ) / (section_scores.length : ℚ) * 0.5
          + ((min (keywords_found * 5) 100 : ℕ) : ℚ) * 0.3 + (format_score : ℚ) * 0.2)
    ∧ pyTrunc (((section_scores.map Prod.snd).sum : ℚ) / (section_scores.length : ℚ) * 0.5
          + ((min (keywords_found * 5) 100 : ℕ) : ℚ) * 0.3 + (format_score : ℚ) * 0.2)
      = ⌊((section_scores.map Prod.snd).sum : ℚ) / (section_scores.length : ℚ) * 0.5
          + ((min (keywords_found * 5) 100 : ℕ) : ℚ) * 0.3 + (format_score : ℚ) * 0.2⌋ := by
  set s := (section_scores.map Prod.snd).sum with hs
  set n := section_scores.length with hn
  set ks := min (keywords_found * 5) 100 with hks
  set q : ℚ := (s : ℚ) / (n : ℚ) * 0.5 + (ks : ℚ) * 0.3 + (format_score : ℚ) * 0.2 with hqdef
  have hq0 : 0 ≤ q := by positivity
  have htr : pyTrunc q = ⌊q⌋ := if_pos hq0
  refine ⟨?_, htr⟩
  have hn0 : (n : ℚ) ≠ 0 := by
    exact_mod_cast Nat.pos_iff_ne_zero.mp h
  have hQ : q = (((5 * s + 3 * ks * n + 2 * format_score * n : ℕ) : ℤ) : ℚ)
      / ((10 * n : ℕ) : ℚ) := by
    rw [hqdef]
    push_cast
    field_simp
    ring
  have hfl : ⌊q⌋ = ((5 * s + 3 * ks * n + 2 * format_score * n : ℕ) : ℤ)
      / ((10 * n : ℕ) : ℤ) := by
    rw [hQ]
    exact Rat.floor_intCast_div_natCast _ _
  have hdef : calculate_overall_score section_scores keywords_found format_score
      = (((5 * s + 3 * ks * n + 2 * format_score * n) / (10 * n) : ℕ) : ℤ) := rfl
  rw [htr, hfl, hdef]
  exact Int.ofNat_div _ _

/-- C2 witness: the theorem applied to the 7-section map of the empty text
with 3 keywords and format score 50. -/
theorem claim_C2_witness :
    0 < (analyze_sections "").length
    ∧ (calculate_overall_score (analyze_sections "") 3 50
        = pyTrunc ((((analyze_sections "").map Prod.snd).sum : ℚ)
            / ((analyze_sections "").length : ℚ) * 0.5
            + ((min (3 * 5) 100 : ℕ) : ℚ) * 0.3 + ((50 : ℕ) : ℚ) * 0.2)
      ∧ pyTrunc ((((analyze_sections "").map Prod.snd).sum : ℚ)
            / ((analyze_sections "").length : ℚ) * 0.5
            + ((min (3 * 5) 100 : ℕ) : ℚ) * 0.3 + ((50 : ℕ) : ℚ) * 0.2)
          = ⌊(((analyze_sections "").map Prod.snd).sum : ℚ)
            / ((analyze_sections "").length : ℚ) * 0.5
            + ((min (3 * 5) 100 : ℕ) : ℚ) * 0.3 + ((50 : ℕ) : ℚ) * 0.2⌋) :=
  ⟨by decide, claim_C2 (analyze_sections "") 3 50 (by decide)⟩

/-- C4: every analysis satisfies the output bounds — overall score in [0,100],
format score in [0,100], every section score at most 100, at most 7 sections
detected, and at most 8 suggestions. -/
theorem claim_C4 (text filename : String) :
    0 ≤ (analyze_resume text filename).overall_score
    ∧ (analyze_resume text filename).overall_score ≤ 100
    ∧ (analyze_resume text filename).format_score ≤ 100
    ∧ ((analyze_resume text filename).section_scores.all fun p => p.2 ≤ 100) = true
    ∧ (analyze_resume text filename).sections_detected ≤ 7
    ∧ (analyze_resume text filename).suggestions.length ≤ 8 := by
  have hsec : ∀ x ∈ (analyze_sections text).map Prod.snd, x ≤ 100 := by
    intro x hx
    obtain ⟨p, hp, rfl⟩ := List.mem_map.mp hx
    exact analyze_sections_snd_le text p hp
  have hs : ((analyze_sections text).map Prod.snd).sum ≤ 700 := by
    have := List.sum_le_card_nsmul ((analyze_sections text).map Prod.snd) 100 hsec
    simpa using this
  refine ⟨Int.ofNat_nonneg _, ?_, min_le_right _ _, ?_, ?_, ?_⟩
  · show (((5 * ((analyze_sections text).map Prod.snd).sum
        + 3 * min (count_keywords text * 5) 100 * 7
        + 2 * analyze_format text * 7) / 70 : ℕ) : ℤ) ≤ 100
    have hks : min (count_keywords text * 5) 100 ≤ 100 := min_le_right _ _
    have hf : analyze_format text ≤ 100 := min_le_right _ _
    have hA : 5 * ((analyze_sections text).map Prod.snd).sum
        + 3 * min (count_keywords text * 5) 100 * 7
        + 2 * analyze_format text * 7 ≤ 7000 := by omega
    have : (5 * ((analyze_sections text).map Prod.snd).sum
        + 3 * min (count_keywords text * 5) 100 * 7
        + 2 * analyze_format text * 7) / 70 ≤ 100 := by
      calc _ ≤ 7000 / 70 := Nat.div_le_div_right hA
        _ = 100 := by norm_num
    exact_mod_cast this
  · rw [List.all_eq_true]
    intro p hp
    exact decide_eq_true (analyze_sections_snd_le text p hp)
  · exact List.length_filter_le _ _
  · exact List.length_take_le _ _

/-- C7: for every input text, each catalog section scores 0 when none of its
patterns occurs in the lowered text and `min (60 + bonus) 100` otherwise; the
contact_info bonus is +10 each for an email match, a phone match, literal
"linkedin" and literal "github", while professional_summary, projects and
certifications carry no bonus (plain 60 when detected). -/
theorem claim_C7 (text : String) :
    (analyze_sections text).lookup "contact_info"
      = some (if ["email", "phone", "linkedin", "github", "address"].any
                (fun pattern => hasSub pattern.data (lowerList text.data))
          then min (60 + ((if emailSearch text then 10 else 0)
            + (if phoneSearch text then 10 else 0)
            + (if hasSub "linkedin".data (lowerList text.data) then 10 else 0)
            + (if hasSub "github".data (lowerList text.data) then 10 else 0))) 100
          else 0)
    ∧ (analyze_sections text).lookup "professional_summary"
      = some (if ["summary", "objective", "profile", "about"].any
                (fun pattern => hasSub pattern.data (lowerList text.data))
          then 60 else 0)
    ∧ (analyze_sections text).lookup "experience"
      = some (if ["experience", "employment", "work history", "career"].any
                (fun pattern => hasSub pattern.data (lowerList text.data))
          then min (60 + score_experience_section text) 100 else 0)
    ∧ (analyze_sections text).lookup "education"
      = some (if ["education", "academic", "degree", "university", "college"].any
                (fun pattern => hasSub pattern.data (lowerList text.data))
          then min (60 + score_education_section text) 100 else 0)
    ∧ (analyze_sections text).lookup "skills"
      = some (if ["skills", "technical skills", "technologies", "programming"].any
                (fun pattern => hasSub pattern.data (lowerList text.data))
          then min (60 + score_skills_section text) 100 else 0)
    ∧ (analyze_sections text).lookup "projects"
      = some (if ["projects", "portfolio", "work samples"].any
                (fun pattern => hasSub pattern.data (lowerList text.data))
          then 60 else 0)
    ∧ (analyze_sections text).lookup "certifications"
      = some (if ["certifications", "licenses", "certificates"].any
                (fun pattern => hasSub pattern.data (lowerList text.data))
          then 60 else 0) :=
  ⟨rfl, rfl, rfl, rfl, rfl, rfl, rfl⟩

/-- C3: analysing the empty string yields all 7 section scores 0, no keywords,
format score 0, no sections detected, overall score 0, and exactly 8
suggestions. -/
theorem claim_C3 (filename : String) :
    (analyze_resume "" filename).section_scores
      = [("contact_info", 0), ("professional_summary", 0), ("experience", 0),
         ("education", 0), ("skills", 0), ("projects", 0), ("certifications", 0)]
    ∧ (analyze_resume "" filename).keywords_found = 0
    ∧ (analyze_resume "" filename).format_score = 0
    ∧ (analyze_resume "" filename).sections_detected = 0
    ∧ (analyze_resume "" filename).overall_score = 0
    ∧ (analyze_resume "" filename).suggestions.length = 8 :=
  ⟨rfl, rfl, rfl, rfl, rfl, rfl⟩

/-- C5 counterexample: the text "Python, Java, React, react, PYTHON" contains
three distinct catalog keywords (python, java, react), so `count_keywords`
does not return 2 on it. -/
theorem claim_C5_counterexample :
    count_keywords "Python, Java, React, react, PYTHON" ≠ 2 := by decide

/-- C5 (amended): `count_keywords` on "Python, Java, React, react, PYTHON"
returns exactly 3, counting each distinct catalog keyword (python, java,
react) once regardless of case variants and repetitions. -/
theorem claim_C5 :
    count_keywords "Python, Java, React, react, PYTHON" = 3
    ∧ (tech_keywords.filter fun keyword =>
        hasSub (lowerList keyword.data)
          (lowerList "Python, Java, React, react, PYTHON".data))
      = ["python", "java", "react"] := by decide

/-- C6 counterexample: the contact_info section score of "a@b.co" is not 10
greater than that of the empty text — none of the contact_info section
patterns occurs in "a@b.co", so the section is undetected and scores 0 for
both texts. -/
theorem claim_C6_counterexample :
    ¬ (((analyze_resume "a@b.co" "r.pdf").section_scores.lookup "contact_info").getD 0
        = ((analyze_resume "" "r.pdf").section_scores.lookup "contact_info").getD 0 + 10) := by
  decide

/-- C6 (amended): moving from the empty text to "a@b.co" leaves the
contact_info section score unchanged at 0 (no contact_info pattern occurs, so
the section is undetected and the email bonus never applies), raises
format_score by exactly 20 (the email format indicator), and consequently
raises overall_score by exactly 4; all other output fields are equal. -/
theorem claim_C6 :
    ((analyze_resume "a@b.co" "r.pdf").section_scores.lookup "contact_info").getD 0 = 0
    ∧ ((analyze_resume "" "r.pdf").section_scores.lookup "contact_info").getD 0 = 0
    ∧ (analyze_resume "a@b.co" "r.pdf").format_score
        = (analyze_resume "" "r.pdf").format_score + 20
    ∧ (analyze_resume "a@b.co" "r.pdf").overall_score
        = (analyze_resume "" "r.pdf").overall_score + 4
    ∧ (analyze_resume "a@b.co" "r.pdf").section_scores
        = (analyze_resume "" "r.pdf").section_scores
    ∧ (analyze_resume "a@b.co" "r.pdf").keywords_found
        = (analyze_resume "" "r.pdf").keywords_found
    ∧ (analyze_resume "a@b.co" "r.pdf").sections_detected
        = (analyze_resume "" "r.pdf").sections_detected
    ∧ (analyze_resume "a@b.co" "r.pdf").suggestions
        = (analyze_resume "" "r.pdf").suggestions := by decide

/-- C8: `analyze_resume` is deterministic — equal text and filename inputs
produce equal `ResumeAnalysis` values (the embedding is a pure function of its
inputs and the fixed catalog; the scorer has no mutable state). -/
theorem claim_C8 (t₁ t₂ f₁ f₂ : String) (ht : t₁ = t₂) (hf : f₁ = f₂) :
    analyze_resume t₁ f₁ = analyze_resume t₂ f₂ := by
  subst ht; subst hf; rfl

/-- C8 witness: two identical calls on a concrete input coincide. -/
theorem claim_C8_witness :
    analyze_resume "skills: python" "cv.pdf" = analyze_resume "skills: python" "cv.pdf" :=
  claim_C8 "skills: python" "skills: python" "cv.pdf" "cv.pdf" rfl rfl

/-- C9 counterexample: a text containing all 26 catalog keywords yields
`count_keywords = 26`, and 26 * 5 = 130 exceeds 100 — so the keyword
component does NOT stay within 100 "even without the min". -/
theorem claim_C9_counterexample :
    count_keywords "python java javascript react node.js sql html css git github docker kubernetes aws azure mongodb postgresql mysql machine learning data science api rest agile scrum ci/cd jenkins linux" = 26
    ∧ 100 < count_keywords "python java javascript react node.js sql html css git github docker kubernetes aws azure mongodb postgresql mysql machine learning data science api rest agile scrum ci/cd jenkins linux" * 5 := by
  decide

/-- C9 (amended): `count_keywords` never exceeds 26, the size of the fixed
technical-keyword catalog, and the keyword component `min(k*5, 100)` never
exceeds 100 because of the min (without the min it can reach 26 * 5 = 130). -/
theorem claim_C9 (text : String) :
    count_keywords text ≤ 26
    ∧ tech_keywords.length = 26
    ∧ min (count_keywords text * 5) 100 ≤ 100 :=
  ⟨List.countP_le_length _, rfl, min_le_right _ _⟩

/-- C10: the bare 10-digit text "1234567890" (no separator-delimited phone
format) matches the phone indicator — `\d{3}[-.]?\d{3}[-.]?\d{4}` with both
separators absent — so `analyze_format` awards exactly its +20 phone credit
(no other indicator fires) and `score_contact_info` awards exactly its +10
phone bonus. -/
theorem claim_C10 :
    phoneSearch "1234567890" = true
    ∧ bulletSearch "1234567890" = false
    ∧ datesSearch "1234567890" = false
    ∧ emailSearch "1234567890" = false
    ∧ analyze_format "1234567890" = 20
    ∧ score_contact_info "1234567890" = 10 := by decide

end ATS
